import Mathlib

/-!
# Shallow embedding of the Chatwork API v2 Deno client (src/main.ts)

This file embeds the request-building core of the client: the parameter
encoder, the parameter validator, the error classifier, the credential
resolution chain, and the per-endpoint request construction.  JavaScript
numbers that hold identifiers or epoch times are modelled as `Int`;
JavaScript `Date` objects are modelled by their internal millisecond value;
`undefined`/absent optional fields are modelled by `Option`.  String `trim`
and `toLowerCase` are modelled character-wise (`jsTrim`/`jsToLower`; the
inputs of interest are ASCII).  Side-effecting `console.log`/`warn`
diagnostics are ignored: they do not change any value.
-/

namespace Chatwork

/-- A JavaScript `Date`, identified by its epoch-millisecond value
(`getTime()`).  `new Date(n)` for a number `n` stores `n` milliseconds. -/
structure JSDate where
  ms : Int
deriving DecidableEq, Repr

/-- `new Date(n)`: the numeric argument is interpreted as epoch
milliseconds. -/
def JSDate.fromNumber (n : Int) : JSDate := ⟨n⟩

/-- `Date.prototype.getTime()`. -/
def JSDate.getTime (d : JSDate) : Int := d.ms

/-- Milliseconds of the date shifted into local time for a timezone that is
`tzOffsetMin` minutes behind UTC (the value of `getTimezoneOffset()`);
`tzOffsetMin = 0` is UTC. -/
def JSDate.localMs (tzOffsetMin : Int) (d : JSDate) : Int :=
  d.ms - tzOffsetMin * 60000

/-- `Date.prototype.getSeconds()` in a timezone with the given offset. -/
def JSDate.getSeconds (tzOffsetMin : Int) (d : JSDate) : Int :=
  ((d.localMs tzOffsetMin).fdiv 1000).emod 60

/-- `Date.prototype.getMinutes()` in a timezone with the given offset. -/
def JSDate.getMinutes (tzOffsetMin : Int) (d : JSDate) : Int :=
  ((d.localMs tzOffsetMin).fdiv 60000).emod 60

/-- `Date.prototype.getHours()` in a timezone with the given offset. -/
def JSDate.getHours (tzOffsetMin : Int) (d : JSDate) : Int :=
  ((d.localMs tzOffsetMin).fdiv 3600000).emod 24

/-- `String.prototype.toLowerCase()` (character-wise ASCII lower-casing;
the enum inputs of interest are ASCII). -/
def jsToLower (s : String) : String := ⟨s.data.map Char.toLower⟩

/-- `String.prototype.trim()`: strips leading and trailing whitespace. -/
def jsTrim (s : String) : String :=
  ⟨((s.data.dropWhile Char.isWhitespace).reverse.dropWhile Char.isWhitespace).reverse⟩

/-- A `string | number` element of an id list. -/
inductive StrOrNum where
  | str (s : String)
  | num (n : Int)
deriving DecidableEq, Repr

/-- JavaScript `String(v)` on a `string | number` value (integral numbers
print in decimal). -/
def StrOrNum.asString : StrOrNum → String
  | .str s => s
  | .num n => toString n

/-- A `string | (string | number)[]` field (the id-list fields). -/
inductive StrOrList where
  | str (s : String)
  | arr (l : List StrOrNum)
deriving DecidableEq, Repr

/-- JavaScript truthiness test used by the required-field validation:
a string is falsy exactly when empty; an array is an object, hence always
truthy (even when empty). -/
def StrOrList.isFalsy : StrOrList → Bool
  | .str s => s = ""
  | .arr _ => false

/-- `Array.prototype.join(",")` (elements stringified, comma-separated,
original order). -/
def joinComma (l : List StrOrNum) : String :=
  String.intercalate "," (l.map StrOrNum.asString)

/-- The `Array.isArray(v) ? v.join(",") : v` normalization the endpoint
methods apply in place to id-list fields before building the form. -/
def joinIfArray : StrOrList → String
  | .str s => s
  | .arr l => joinComma l

/-- A `string | number | (string | number)[]` form value, as accepted by
`entryValuesAsStrings`. -/
inductive FormVal where
  | str (s : String)
  | num (n : Int)
  | arr (l : List StrOrNum)
deriving DecidableEq, Repr

/-- `entryValuesAsStrings`: maps a form entry `[key, val]` to
`[key, Array.isArray(val) ? val.join(",") : String(val)]`. -/
def entryValuesAsStrings : String × FormVal → String × String
  | (key, .arr l) => (key, joinComma l)
  | (key, .str s) => (key, s)
  | (key, .num n) => (key, toString n)

/-- A `string | number | boolean` query-parameter value. -/
inductive QVal where
  | str (s : String)
  | num (n : Int)
  | bool (b : Bool)
deriving DecidableEq, Repr

/-- Template-literal stringification `${val}` of a query value. -/
def QVal.asString : QVal → String
  | .str s => s
  | .num n => toString n
  | .bool b => if b then "true" else "false"

/-- `queryStringFromParamsObject`: keys with `undefined`/`null` values are
skipped; remaining entries render as `k=v` joined by `&` behind a leading
`?`; an absent object or no defined entries yield the empty string.
Entries are in object-literal declaration order. -/
def queryStringFromParamsObject (queryParams : Option (List (String × Option QVal))) : String :=
  match queryParams with
  | none => ""
  | some ps =>
    let definedParams := ps.filterMap fun (key, val) =>
      match val with
      | none => none
      | some v => some (key ++ "=" ++ v.asString)
    if definedParams.length > 0 then
      "?" ++ String.intercalate "&" definedParams
    else
      ""

/-- `validTaskStatusRe = /^(open|done)$/` applied after the falsy guard in
`isValidTaskStatus`. -/
def isValidTaskStatus : Option String → Bool
  | none => false
  | some s => if s = "" then false else (s = "open" || s = "done")

/-- `validLimitTypeRe = /^(none|date|time)$/` applied after the falsy guard
in `isValidLimitType`. -/
def isValidLimitType (s : String) : Bool :=
  if s = "" then false else (s = "none" || s = "date" || s = "time")

/-! ## Error classifier (`ChatworkError`) -/

/-- The observable state of a constructed `ChatworkError`: its `name` and
its `message`. -/
structure CWError where
  name : String
  msg : String
deriving DecidableEq, Repr

/-- The default value of the `resourceType` constructor parameter. -/
def defaultResourceType : String := "リソース"

/-- The `ChatworkError` constructor: a total map from a status code and a
resource-type label to an error name and message. -/
def chatworkError (statusCode : Nat) (resourceType : String) : CWError :=
  if statusCode = 400 then
    ⟨"IncorrectParametersError",
     "リクエストまたはアクセストークンのパラメーターが不足している、および不正な値が指定されている"⟩
  else if statusCode = 401 then
    ⟨"UnauthorizedError", "認証に失敗した"⟩
  else if statusCode = 403 then
    ⟨"ForbiddenError", "アクセストークンのスコープが不足している"⟩
  else if statusCode = 404 then
    ⟨"NotFoundError", resourceType ++ "が存在しない"⟩
  else if statusCode = 429 then
    ⟨"RateLimitError", "APIの利用回数制限を超過した"⟩
  else
    ⟨"UnknownChatworkError " ++ toString statusCode, "不明なエラー"⟩

/-! ## Pre-flight errors (validator) -/

/-- The typed errors thrown before any network call: `MissingParameterError`
carries the name of the absent field; `InvalidParameterError` carries the
field, the offending value, and the expected set. -/
inductive PreError where
  | missing (param : String)
  | invalid (param : String) (val : String) (expected : String)
deriving DecidableEq, Repr

/-- The rendered `message` of a pre-flight error. -/
def PreError.message : PreError → String
  | .missing p => p ++ " は必須パラメータです。"
  | .invalid p v e => p ++ " が " ++ v ++ " となっているが、 " ++ e ++ " とすべきである。"

/-! ## Credential resolution (`ChatworkClient.create`) -/

/-- The message of the error thrown when no token source yields a value. -/
def noTokenErrorMsg : String :=
  "新しいChatworkClientを初期化するときは、Chatwork APIトークンを渡すか、CW_API_TOKEN環境変数を定義する必要があります。"

/-- `ChatworkClient.create` token resolution.  `options.token` defaults to
`""` when no argument is given; `env` models `Deno.env.get("CW_API_TOKEN")`
(`none` = unset); `dotenv` models the `CW_API_TOKEN` entry of `loadSync()`
(`none` = no entry / no file).  Each step's value is used only when truthy
(non-empty).  On total failure the constructor throws. -/
def resolveToken (argToken : String) (env : Option String) (dotenv : Option String) :
    Except String String :=
  if argToken ≠ "" then
    .ok argToken
  else
    let envToken := env.getD ""
    let envToken := if envToken ≠ "" then envToken else (dotenv.getD "")
    if envToken ≠ "" then
      .ok envToken
    else
      .error noTokenErrorMsg

/-! ## Requests and headers -/

/-- The fixed API endpoint prefix. -/
def apiV2Endpoint : String := "https://api.chatwork.com/v2"

/-- `#DefaultHeaders`. -/
def defaultHeaders (token : String) : List (String × String) :=
  [("accept", "application/json"), ("x-chatworktoken", token)]

/-- `#FormDataHeaders`: the default headers spread first, then the
url-encoded-form content type. -/
def formDataHeaders (token : String) : List (String × String) :=
  defaultHeaders token ++ [("content-type", "application/x-www-form-urlencoded")]

/-- The body attached to a request: none (query-only calls), a
`URLSearchParams` form (held as its entry list), or a two-field multipart
`FormData` (message text plus the normalized file bytes). -/
inductive RequestBody where
  | empty
  | form (pairs : List (String × String))
  | multipart (message : String) (file : List UInt8)
deriving DecidableEq, Repr

/-- One outbound HTTP request as handed to the injected `fetch`. -/
structure Request where
  url : String
  method : String
  headers : List (String × String)
  body : RequestBody
deriving DecidableEq, Repr

/-- The form pairs of a request body (empty for non-form bodies). -/
def RequestBody.formPairs : RequestBody → List (String × String)
  | .form ps => ps
  | _ => []

/-- The requests a pre-flight result causes the transport to perform: none
when validation threw, exactly the one built request otherwise. -/
def issuedRequests : Except PreError Request → List Request
  | .error _ => []
  | .ok r => [r]

/-- The form pairs of the request a pre-flight result built (empty on a
pre-flight error). -/
def preFormPairs : Except PreError Request → List (String × String)
  | .error _ => []
  | .ok r => r.body.formPairs

/-- Whether a pre-flight result reached the transport. -/
def preIsOk : Except PreError Request → Bool
  | .error _ => false
  | .ok _ => true

/-! ## `application/x-www-form-urlencoded` serialization (`URLSearchParams`) -/

/-- Upper-case hexadecimal digit. -/
def hexDigit (n : Nat) : Char :=
  if n < 10 then Char.ofNat (48 + n) else Char.ofNat (55 + n)

/-- Percent-encode one byte of a form key or value: bytes for ASCII
alphanumerics and `*`, `-`, `.`, `_` pass through, a space byte becomes
`+`, every other byte becomes `%XX`. -/
def urlencodeByte (b : UInt8) : String :=
  let n := b.toNat
  if (48 ≤ n && n ≤ 57) || (65 ≤ n && n ≤ 90) || (97 ≤ n && n ≤ 122)
      || n = 42 || n = 45 || n = 46 || n = 95 then
    String.singleton (Char.ofNat n)
  else if n = 32 then
    "+"
  else
    "%" ++ String.singleton (hexDigit (n / 16)) ++ String.singleton (hexDigit (n % 16))

/-- The UTF-8 bytes of one code point. -/
def utf8Bytes (c : Char) : List UInt8 :=
  let n := c.toNat
  if n < 128 then
    [UInt8.ofNat n]
  else if n < 2048 then
    [UInt8.ofNat (192 + n / 64), UInt8.ofNat (128 + n % 64)]
  else if n < 65536 then
    [UInt8.ofNat (224 + n / 4096), UInt8.ofNat (128 + (n / 64) % 64), UInt8.ofNat (128 + n % 64)]
  else
    [UInt8.ofNat (240 + n / 262144), UInt8.ofNat (128 + (n / 4096) % 64),
     UInt8.ofNat (128 + (n / 64) % 64), UInt8.ofNat (128 + n % 64)]

/-- The UTF-8 byte sequence of a string. -/
def strBytes (s : String) : List UInt8 :=
  s.data.flatMap utf8Bytes

/-- Percent-encode a string, byte-wise over its UTF-8 encoding. -/
def urlencode (s : String) : String :=
  String.join ((strBytes s).map urlencodeByte)

/-- The serialized body of a `URLSearchParams`: `k=v` pairs joined by `&`,
keys and values percent-encoded. -/
def serializeForm (pairs : List (String × String)) : String :=
  String.intercalate "&" (pairs.map fun (k, v) => urlencode k ++ "=" ++ urlencode v)

/-! ## Endpoint request construction (pre-flight phase)

Each `...Pre` function performs the method's validation and encoding and
returns either the thrown pre-flight error or the single request handed to
the transport.  Bodiless `fetch` calls use the default method, modelled as
`"get"`.  Form-entry lists follow the declaration order of the parameter
object; an optional field contributes an entry only when supplied. -/

/-- Query-value view of a `string | number`. -/
def StrOrNum.toQVal : StrOrNum → QVal
  | .str s => .str s
  | .num n => .num n

/-- The entry a possibly-absent form field contributes. -/
def optEntry (key : String) (v : Option FormVal) : List (String × FormVal) :=
  match v with
  | none => []
  | some x => [(key, x)]

/-- `getMe`. -/
def getMePre (token : String) : Except PreError Request :=
  .ok ⟨apiV2Endpoint ++ "/me", "get", defaultHeaders token, .empty⟩

/-- `getMyStatus`. -/
def getMyStatusPre (token : String) : Except PreError Request :=
  .ok ⟨apiV2Endpoint ++ "/my/status", "get", defaultHeaders token, .empty⟩

/-- `getMyTasks` query parameters. -/
structure MyTasksQuery where
  assigned_by_account_id : Option StrOrNum := none
  status : Option String := none
deriving DecidableEq, Repr

/-- `getMyTasks`. -/
def getMyTasksPre (token : String) (queryParams : MyTasksQuery) : Except PreError Request :=
  let queryString := queryStringFromParamsObject (some
    [("assigned_by_account_id", queryParams.assigned_by_account_id.map StrOrNum.toQVal),
     ("status", queryParams.status.map QVal.str)])
  .ok ⟨apiV2Endpoint ++ "/my/tasks" ++ queryString, "get", defaultHeaders token, .empty⟩

/-- `getContacts`. -/
def getContactsPre (token : String) : Except PreError Request :=
  .ok ⟨apiV2Endpoint ++ "/contacts", "get", defaultHeaders token, .empty⟩

/-- `getRooms`. -/
def getRoomsPre (token : String) : Except PreError Request :=
  .ok ⟨apiV2Endpoint ++ "/rooms", "get", defaultHeaders token, .empty⟩

/-- `postRooms` form data (`link` and `link_need_acceptance` are typed
`number` in the source). -/
structure RoomsPostForm where
  name : String
  description : Option String := none
  link : Option Int := none
  link_code : Option String := none
  link_need_acceptance : Option Int := none
  members_admin_ids : StrOrList
  members_member_ids : Option StrOrList := none
  members_readonly_ids : Option StrOrList := none
  icon_preset : String
deriving DecidableEq, Repr

/-- `postRooms`: validates `name` and `members_admin_ids`, joins the three
id lists in place, then builds the url-encoded form. -/
def postRoomsPre (token : String) (formData : RoomsPostForm) : Except PreError Request :=
  if formData.name = "" then
    .error (.missing "formData.name")
  else if formData.members_admin_ids.isFalsy then
    .error (.missing "formData.members_admin_ids")
  else
    let pairs := ([("name", FormVal.str formData.name)]
      ++ optEntry "description" (formData.description.map .str)
      ++ optEntry "link" (formData.link.map .num)
      ++ optEntry "link_code" (formData.link_code.map .str)
      ++ optEntry "link_need_acceptance" (formData.link_need_acceptance.map .num)
      ++ [("members_admin_ids", FormVal.str (joinIfArray formData.members_admin_ids))]
      ++ optEntry "members_member_ids"
          ((formData.members_member_ids.map joinIfArray).map .str)
      ++ optEntry "members_readonly_ids"
          ((formData.members_readonly_ids.map joinIfArray).map .str)
      ++ [("icon_preset", FormVal.str formData.icon_preset)]).map entryValuesAsStrings
    .ok ⟨apiV2Endpoint ++ "/rooms", "post", formDataHeaders token, .form pairs⟩

/-- `getRoom`. -/
def getRoomPre (token : String) (roomId : Int) : Except PreError Request :=
  if roomId = 0 then
    .error (.missing "roomId")
  else
    .ok ⟨apiV2Endpoint ++ "/rooms/" ++ toString roomId, "get", defaultHeaders token, .empty⟩

/-- `putRoom` form data. -/
structure RoomPutForm where
  name : String
  description : String
  icon_preset : String
deriving DecidableEq, Repr

/-- `putRoom`: only `roomId` is validated. -/
def putRoomPre (token : String) (roomId : Int) (formData : RoomPutForm) :
    Except PreError Request :=
  if roomId = 0 then
    .error (.missing "roomId")
  else
    let pairs := ([("name", FormVal.str formData.name),
      ("description", FormVal.str formData.description),
      ("icon_preset", FormVal.str formData.icon_preset)]).map entryValuesAsStrings
    .ok ⟨apiV2Endpoint ++ "/rooms/" ++ toString roomId, "put", formDataHeaders token, .form pairs⟩

/-- `deleteRooms`: validates `roomId` and `formData.action_type`. -/
def deleteRoomsPre (token : String) (roomId : Int) (action_type : String) :
    Except PreError Request :=
  if roomId = 0 then
    .error (.missing "roomId")
  else if action_type = "" then
    .error (.missing "formData.action_type")
  else
    let pairs := ([("action_type", FormVal.str action_type)]).map entryValuesAsStrings
    .ok ⟨apiV2Endpoint ++ "/rooms/" ++ toString roomId, "delete", formDataHeaders token,
      .form pairs⟩

/-- `getRoomMembers`. -/
def getRoomMembersPre (token : String) (roomId : Int) : Except PreError Request :=
  if roomId = 0 then
    .error (.missing "roomId")
  else
    .ok ⟨apiV2Endpoint ++ "/rooms/" ++ toString roomId ++ "/members", "get",
      defaultHeaders token, .empty⟩

/-- `putRoomMembers` form data. -/
structure RoomMembersPutForm where
  members_admin_ids : StrOrList
  members_member_ids : StrOrList
  members_readonly_ids : StrOrList
deriving DecidableEq, Repr

/-- `putRoomMembers`: validates `roomId` and `members_admin_ids` only, then
joins all three lists. -/
def putRoomMembersPre (token : String) (roomId : Int) (formData : RoomMembersPutForm) :
    Except PreError Request :=
  if roomId = 0 then
    .error (.missing "roomId")
  else if formData.members_admin_ids.isFalsy then
    .error (.missing "formData.members_admin_ids")
  else
    let pairs := ([("members_admin_ids", FormVal.str (joinIfArray formData.members_admin_ids)),
      ("members_member_ids", FormVal.str (joinIfArray formData.members_member_ids)),
      ("members_readonly_ids", FormVal.str (joinIfArray formData.members_readonly_ids))]).map
      entryValuesAsStrings
    .ok ⟨apiV2Endpoint ++ "/rooms/" ++ toString roomId ++ "/members", "put",
      formDataHeaders token, .form pairs⟩

/-- `getRoomMessages`: `queryParams.force` is overwritten in place with
`"1"`/`"0"` by its truthiness (an absent/`undefined` value counts falsy),
so the force key is always a defined string when the query is built. -/
def getRoomMessagesPre (token : String) (roomId : Int) (force : Option Bool) :
    Except PreError Request :=
  if roomId = 0 then
    .error (.missing "roomId")
  else
    let forceStr := if force = some true then "1" else "0"
    let queryString := queryStringFromParamsObject (some [("force", some (.str forceStr))])
    .ok ⟨apiV2Endpoint ++ "/rooms/" ++ toString roomId ++ "/messages" ++ queryString, "get",
      defaultHeaders token, .empty⟩

/-- `postRoomMessage`: validates `roomId` and `formData.body`, encodes
`self_unread` as `"1"`/`"0"`. -/
def postRoomMessagePre (token : String) (roomId : Int) (body : String) (self_unread : Bool) :
    Except PreError Request :=
  if roomId = 0 then
    .error (.missing "roomId")
  else if body = "" then
    .error (.missing "formData.body")
  else
    let pairs := ([("body", FormVal.str body),
      ("self_unread", FormVal.str (if self_unread then "1" else "0"))]).map entryValuesAsStrings
    .ok ⟨apiV2Endpoint ++ "/rooms/" ++ toString roomId ++ "/messages", "post",
      formDataHeaders token, .form pairs⟩

/-- `putRoomMessagesRead`: validates `roomId` only; `formData.message_id`
is passed through unchecked. -/
def putRoomMessagesReadPre (token : String) (roomId : Int) (message_id : String) :
    Except PreError Request :=
  if roomId = 0 then
    .error (.missing "roomId")
  else
    let pairs := ([("message_id", FormVal.str message_id)]).map entryValuesAsStrings
    .ok ⟨apiV2Endpoint ++ "/rooms/" ++ toString roomId ++ "/messages/read", "put",
      formDataHeaders token, .form pairs⟩

/-- `putRoomMessagesUnread`: validates `roomId` and `formData.message_id`. -/
def putRoomMessagesUnreadPre (token : String) (roomId : Int) (message_id : String) :
    Except PreError Request :=
  if roomId = 0 then
    .error (.missing "roomId")
  else if message_id = "" then
    .error (.missing "formData.message_id")
  else
    let pairs := ([("message_id", FormVal.str message_id)]).map entryValuesAsStrings
    .ok ⟨apiV2Endpoint ++ "/rooms/" ++ toString roomId ++ "/messages/unread", "put",
      formDataHeaders token, .form pairs⟩

/-- `getRoomMessage`. -/
def getRoomMessagePre (token : String) (roomId : Int) (messageId : Int) :
    Except PreError Request :=
  if roomId = 0 then
    .error (.missing "roomId")
  else if messageId = 0 then
    .error (.missing "messageId")
  else
    .ok ⟨apiV2Endpoint ++ "/rooms/" ++ toString roomId ++ "/messages/" ++ toString messageId,
      "get", defaultHeaders token, .empty⟩

/-- `putRoomMessage`. -/
def putRoomMessagePre (token : String) (roomId : Int) (messageId : Int) (body : String) :
    Except PreError Request :=
  if roomId = 0 then
    .error (.missing "roomId")
  else if messageId = 0 then
    .error (.missing "messageId")
  else if body = "" then
    .error (.missing "formData.body")
  else
    let pairs := ([("body", FormVal.str body)]).map entryValuesAsStrings
    .ok ⟨apiV2Endpoint ++ "/rooms/" ++ toString roomId ++ "/messages/" ++ toString messageId,
      "put", formDataHeaders token, .form pairs⟩

/-- `deleteRoomMessage` (bodiless, default headers). -/
def deleteRoomMessagePre (token : String) (roomId : Int) (messageId : Int) :
    Except PreError Request :=
  if roomId = 0 then
    .error (.missing "roomId")
  else if messageId = 0 then
    .error (.missing "messageId")
  else
    .ok ⟨apiV2Endpoint ++ "/rooms/" ++ toString roomId ++ "/messages/" ++ toString messageId,
      "delete", defaultHeaders token, .empty⟩

/-- `getRoomTasks` query parameters. -/
structure RoomTasksQuery where
  account_id : Option Int := none
  assigned_by_account_id : Option StrOrNum := none
  status : Option String := none
deriving DecidableEq, Repr

/-- `getRoomTasks`: the status filter is trimmed and lower-cased in place;
when the normalized value fails `isValidTaskStatus` the key is deleted (a
diagnostic warning is logged) and the call proceeds without it. -/
def getRoomTasksPre (token : String) (roomId : Int) (queryParams : RoomTasksQuery) :
    Except PreError Request :=
  if roomId = 0 then
    .error (.missing "roomId")
  else
    let status := queryParams.status.map fun s => jsToLower (jsTrim s)
    let status := if isValidTaskStatus status then status else none
    let queryString := queryStringFromParamsObject (some
      [("account_id", queryParams.account_id.map QVal.num),
       ("assigned_by_account_id", queryParams.assigned_by_account_id.map StrOrNum.toQVal),
       ("status", status.map QVal.str)])
    .ok ⟨apiV2Endpoint ++ "/rooms/" ++ toString roomId ++ "/tasks" ++ queryString, "get",
      defaultHeaders token, .empty⟩

/-- A `Date | number | string` task due value. -/
inductive TaskLimit where
  | date (d : JSDate)
  | num (n : Int)
  | str (s : String)
deriving DecidableEq, Repr

/-- JavaScript truthiness of a due value: a `Date` object is always truthy,
a number is falsy exactly at `0`, a string exactly when empty. -/
def TaskLimit.isTruthy : TaskLimit → Bool
  | .date _ => true
  | .num n => n ≠ 0
  | .str s => s ≠ ""

/-- Truthiness of the possibly-absent `formData.limit` field. -/
def limitTruthy : Option TaskLimit → Bool
  | none => false
  | some v => v.isTruthy

/-- The `Date` a truthy due value is normalized to in place: a `Date`
passes through, a number `n` becomes `new Date(n)` (epoch
**milliseconds**), a string is parsed (`parseDateMs` models
`new Date(s).getTime()`). -/
def normalizeLimit (parseDateMs : String → Int) : TaskLimit → JSDate
  | .date d => d
  | .num n => JSDate.fromNumber n
  | .str s => ⟨parseDateMs s⟩

/-- `postRoomTasks` form data. -/
structure RoomTasksPostForm where
  body : String
  to_ids : StrOrList
  limit : Option TaskLimit := none
  limit_type : Option String := none
deriving Repr

/-- `postRoomTasks`.  `parseDateMs s` models `new Date(s).getTime()` for a
date string; `tzOffsetMin` is the runtime's `getTimezoneOffset()` used by
`getHours`/`getMinutes`/`getSeconds`.  A truthy `limit` is normalized to a
`Date` in place (`new Date(n)` takes epoch **milliseconds**); the
`InvalidParameterError` guard after that conversion is unreachable for
values of the declared `Date | number | string` type and is not modelled.
The due type is inferred from truthiness and the local time-of-day, or
trimmed and lower-cased when supplied; a truthy `limit` is re-encoded as
`Math.floor(getTime() / 1000)` stringified, while a falsy supplied `limit`
is left as-is and stringified by the form encoder. -/
def postRoomTasksPre (parseDateMs : String → Int) (tzOffsetMin : Int) (token : String)
    (roomId : Int) (formData : RoomTasksPostForm) : Except PreError Request :=
  if roomId = 0 then
    .error (.missing "roomId")
  else if formData.body = "" then
    .error (.missing "formData.body")
  else if formData.to_ids.isFalsy then
    .error (.missing "formData.to_ids")
  else
    let limit : Option TaskLimit :=
      if limitTruthy formData.limit then
        formData.limit.map fun v => .date (normalizeLimit parseDateMs v)
      else formData.limit
    let ltFalsy : Bool :=
      match formData.limit_type with
      | none => true
      | some s => s = ""
    let limit_type : String :=
      if ltFalsy then
        if ¬ limitTruthy formData.limit then "none"
        else
          match limit with
          | some (.date d) =>
            if d.getSeconds tzOffsetMin = 0 ∧ d.getMinutes tzOffsetMin = 0 ∧
                d.getHours tzOffsetMin = 0 then "date" else "time"
          | _ => "time"
      else jsToLower (jsTrim (formData.limit_type.getD ""))
    if ¬ isValidLimitType limit_type then
      .error (.invalid "formData.limit_type" limit_type
        "\"none\" または \"date\" または \"time\"")
    else
      let to_ids := joinIfArray formData.to_ids
      let limitEntry : List (String × FormVal) :=
        match limit with
        | none => []
        | some (.date d) => [("limit", FormVal.str (toString (d.getTime.fdiv 1000)))]
        | some (.num n) => [("limit", FormVal.num n)]
        | some (.str s) => [("limit", FormVal.str s)]
      let pairs := ([("body", FormVal.str formData.body), ("to_ids", FormVal.str to_ids)]
        ++ limitEntry ++ [("limit_type", FormVal.str limit_type)]).map entryValuesAsStrings
      .ok ⟨apiV2Endpoint ++ "/rooms/" ++ toString roomId ++ "/tasks", "post",
        formDataHeaders token, .form pairs⟩

/-- `getRoomTask`. -/
def getRoomTaskPre (token : String) (roomId : Int) (taskId : Int) : Except PreError Request :=
  if roomId = 0 then
    .error (.missing "roomId")
  else if taskId = 0 then
    .error (.missing "taskId")
  else
    .ok ⟨apiV2Endpoint ++ "/rooms/" ++ toString roomId ++ "/tasks/" ++ toString taskId,
      "get", defaultHeaders token, .empty⟩

/-- `putRoomTaskStatus`: `formData.body` is trimmed and lower-cased in
place, then checked first for falsiness and then for membership in
`{open, done}`. -/
def putRoomTaskStatusPre (token : String) (roomId : Int) (taskId : Int) (body : String) :
    Except PreError Request :=
  if roomId = 0 then
    .error (.missing "roomId")
  else if taskId = 0 then
    .error (.missing "taskId")
  else
    let body := jsToLower (jsTrim body)
    if body = "" then
      .error (.missing "formData.body")
    else if ¬ isValidTaskStatus (some body) then
      .error (.invalid "formData.body" body "\"done\" または \"open\"")
    else
      let pairs := ([("body", FormVal.str body)]).map entryValuesAsStrings
      .ok ⟨apiV2Endpoint ++ "/rooms/" ++ toString roomId ++ "/tasks/" ++ toString taskId
        ++ "/status", "put", formDataHeaders token, .form pairs⟩

/-- `getRoomFiles`. -/
def getRoomFilesPre (token : String) (roomId : Int) (account_id : Option Int) :
    Except PreError Request :=
  if roomId = 0 then
    .error (.missing "roomId")
  else
    let queryString := queryStringFromParamsObject (some
      [("account_id", account_id.map QVal.num)])
    .ok ⟨apiV2Endpoint ++ "/rooms/" ++ toString roomId ++ "/files" ++ queryString, "get",
      defaultHeaders token, .empty⟩

/-- A `Blob | Uint8Array` upload value, by its byte content. -/
inductive FileVal where
  | blob (bytes : List UInt8)
  | bytes (bytes : List UInt8)
deriving DecidableEq, Repr

/-- A `Uint8Array` is wrapped into a `Blob`; a `Blob` passes through. -/
def FileVal.toBlobBytes : FileVal → List UInt8
  | .blob b => b
  | .bytes b => b

/-- `postRoomFiles`: validates `roomId` and `formData.file` (`none` models
an absent/`undefined` value; `Blob`/`Uint8Array` objects are always
truthy), builds the two-field multipart `FormData` (`message` then `file`),
and passes `#FormDataHeaders` — including its url-encoded-form content-type
— to the transport. -/
def postRoomFilesPre (token : String) (roomId : Int) (file : Option FileVal)
    (message : String) : Except PreError Request :=
  if roomId = 0 then
    .error (.missing "roomId")
  else
    match file with
    | none => .error (.missing "formData.file")
    | some f =>
      .ok ⟨apiV2Endpoint ++ "/rooms/" ++ toString roomId ++ "/files", "post",
        formDataHeaders token, .multipart message f.toBlobBytes⟩

/-- `getRoomFile`: `create_download_url` is re-encoded to `"1"`/`"0"` only
when it is not `undefined`. -/
def getRoomFilePre (token : String) (roomId : Int) (fileId : Int)
    (create_download_url : Option Bool) : Except PreError Request :=
  if roomId = 0 then
    .error (.missing "roomId")
  else if fileId = 0 then
    .error (.missing "fileId")
  else
    let cdu : Option QVal := create_download_url.map fun b => .str (if b then "1" else "0")
    let queryString := queryStringFromParamsObject (some [("create_download_url", cdu)])
    .ok ⟨apiV2Endpoint ++ "/rooms/" ++ toString roomId ++ "/files/" ++ toString fileId
      ++ queryString, "get", defaultHeaders token, .empty⟩

/-- `getRoomLink`. -/
def getRoomLinkPre (token : String) (roomId : Int) : Except PreError Request :=
  if roomId = 0 then
    .error (.missing "roomId")
  else
    .ok ⟨apiV2Endpoint ++ "/rooms/" ++ toString roomId ++ "/link", "get",
      defaultHeaders token, .empty⟩

/-- `postRoomLink`: only `roomId` is validated; `need_acceptance` is
encoded as `"1"`/`"0"`. -/
def postRoomLinkPre (token : String) (roomId : Int) (code : String) (need_acceptance : Bool)
    (description : String) : Except PreError Request :=
  if roomId = 0 then
    .error (.missing "roomId")
  else
    let pairs := ([("code", FormVal.str code),
      ("need_acceptance", FormVal.str (if need_acceptance then "1" else "0")),
      ("description", FormVal.str description)]).map entryValuesAsStrings
    .ok ⟨apiV2Endpoint ++ "/rooms/" ++ toString roomId ++ "/link", "post",
      formDataHeaders token, .form pairs⟩

/-- `putRoomLink`: same shape as `postRoomLink` with the `put` verb. -/
def putRoomLinkPre (token : String) (roomId : Int) (code : String) (need_acceptance : Bool)
    (description : String) : Except PreError Request :=
  if roomId = 0 then
    .error (.missing "roomId")
  else
    let pairs := ([("code", FormVal.str code),
      ("need_acceptance", FormVal.str (if need_acceptance then "1" else "0")),
      ("description", FormVal.str description)]).map entryValuesAsStrings
    .ok ⟨apiV2Endpoint ++ "/rooms/" ++ toString roomId ++ "/link", "put",
      formDataHeaders token, .form pairs⟩

/-- `deleteRoomLink` (bodiless, default headers). -/
def deleteRoomLinkPre (token : String) (roomId : Int) : Except PreError Request :=
  if roomId = 0 then
    .error (.missing "roomId")
  else
    .ok ⟨apiV2Endpoint ++ "/rooms/" ++ toString roomId ++ "/link", "delete",
      defaultHeaders token, .empty⟩

/-- `getIncomingRequests`. -/
def getIncomingRequestsPre (token : String) : Except PreError Request :=
  .ok ⟨apiV2Endpoint ++ "/incoming_requests", "get", defaultHeaders token, .empty⟩

/-- `putIncomingRequests` (bodiless, default headers). -/
def putIncomingRequestsPre (token : String) (requestId : Int) : Except PreError Request :=
  if requestId = 0 then
    .error (.missing "requestId")
  else
    .ok ⟨apiV2Endpoint ++ "/incoming_requests/" ++ toString requestId, "put",
      defaultHeaders token, .empty⟩

/-- `deleteIncomingRequest` (bodiless, default headers). -/
def deleteIncomingRequestPre (token : String) (requestId : Int) : Except PreError Request :=
  if requestId = 0 then
    .error (.missing "requestId")
  else
    .ok ⟨apiV2Endpoint ++ "/incoming_requests/" ++ toString requestId, "delete",
      defaultHeaders token, .empty⟩

/-! ## Full-call outcome (transport response routing) -/

/-- `Response.ok`: status in the inclusive range 200–299. -/
def statusOk (status : Nat) : Bool := 200 ≤ status && status ≤ 299

/-- The outcome of one full operation: a pre-flight throw (no request
issued), a `ChatworkError` throw on a non-ok response, or success. -/
inductive RunOutcome where
  | preError (e : PreError)
  | httpError (req : Request) (err : CWError)
  | success (req : Request)
deriving DecidableEq, Repr

/-- Route a built request through the transport's status and the
`throw new ChatworkError(res.status, resourceType)` catch site. -/
def dispatch (pre : Except PreError Request) (resourceType : String) (status : Nat) :
    RunOutcome :=
  match pre with
  | .error e => .preError e
  | .ok r => if statusOk status then .success r else .httpError r (chatworkError status resourceType)

/-- Full `postRoomMessage` call against a transport answering with the
given status; its catch site passes no resource label, so the classifier
default applies. -/
def postRoomMessageRun (token : String) (roomId : Int) (body : String) (self_unread : Bool)
    (status : Nat) : RunOutcome :=
  dispatch (postRoomMessagePre token roomId body self_unread) defaultResourceType status

/-! # Theorems -/

/-- C4 (counterexample): `putRoomMessagesRead` with the falsy (empty)
required `formData.message_id` does **not** throw MissingParameter: it
builds and issues the request (one transport call with `message_id=`). -/
theorem C4_counterexample_read_unchecked :
    putRoomMessagesReadPre "tok" 1 "" =
      .ok ⟨apiV2Endpoint ++ "/rooms/1/messages/read", "put", formDataHeaders "tok",
        .form [("message_id", "")]⟩ ∧
    issuedRequests (putRoomMessagesReadPre "tok" 1 "") ≠ [] := by
  constructor
  · rfl
  · decide

/-- C4 (amended): for every public operation and every required field the
operation actually checks — which excludes `putRoomMessagesRead`'s
`message_id` and the form fields the source never guards — a falsy value
(`0` for ids, the empty string for strings, absence for the upload file)
throws MissingParameter naming that exact field, and the transport is
invoked zero times (a pre-flight error issues no request). -/
theorem C4_missing_parameter_checks :
    (∀ tok fd, fd.name = "" →
      postRoomsPre tok fd = .error (.missing "formData.name")) ∧
    (∀ tok fd, fd.name ≠ "" → fd.members_admin_ids = .str "" →
      postRoomsPre tok fd = .error (.missing "formData.members_admin_ids")) ∧
    (∀ tok, getRoomPre tok 0 = .error (.missing "roomId")) ∧
    (∀ tok fd, putRoomPre tok 0 fd = .error (.missing "roomId")) ∧
    (∀ tok a, deleteRoomsPre tok 0 a = .error (.missing "roomId")) ∧
    (∀ tok rid, rid ≠ 0 →
      deleteRoomsPre tok rid "" = .error (.missing "formData.action_type")) ∧
    (∀ tok, getRoomMembersPre tok 0 = .error (.missing "roomId")) ∧
    (∀ tok fd, putRoomMembersPre tok 0 fd = .error (.missing "roomId")) ∧
    (∀ tok rid fd, rid ≠ 0 → fd.members_admin_ids = .str "" →
      putRoomMembersPre tok rid fd = .error (.missing "formData.members_admin_ids")) ∧
    (∀ tok f, getRoomMessagesPre tok 0 f = .error (.missing "roomId")) ∧
    (∀ tok b su, postRoomMessagePre tok 0 b su = .error (.missing "roomId")) ∧
    (∀ tok rid su, rid ≠ 0 →
      postRoomMessagePre tok rid "" su = .error (.missing "formData.body")) ∧
    (∀ tok mid, putRoomMessagesReadPre tok 0 mid = .error (.missing "roomId")) ∧
    (∀ tok mid, putRoomMessagesUnreadPre tok 0 mid = .error (.missing "roomId")) ∧
    (∀ tok rid, rid ≠ 0 →
      putRoomMessagesUnreadPre tok rid "" = .error (.missing "formData.message_id")) ∧
    (∀ tok mid, getRoomMessagePre tok 0 mid = .error (.missing "roomId")) ∧
    (∀ tok rid, rid ≠ 0 → getRoomMessagePre tok rid 0 = .error (.missing "messageId")) ∧
    (∀ tok mid b, putRoomMessagePre tok 0 mid b = .error (.missing "roomId")) ∧
    (∀ tok rid b, rid ≠ 0 → putRoomMessagePre tok rid 0 b = .error (.missing "messageId")) ∧
    (∀ tok rid mid, rid ≠ 0 → mid ≠ 0 →
      putRoomMessagePre tok rid mid "" = .error (.missing "formData.body")) ∧
    (∀ tok mid, deleteRoomMessagePre tok 0 mid = .error (.missing "roomId")) ∧
    (∀ tok rid, rid ≠ 0 → deleteRoomMessagePre tok rid 0 = .error (.missing "messageId")) ∧
    (∀ tok q, getRoomTasksPre tok 0 q = .error (.missing "roomId")) ∧
    (∀ p tz tok fd, postRoomTasksPre p tz tok 0 fd = .error (.missing "roomId")) ∧
    (∀ p tz tok rid fd, rid ≠ 0 → fd.body = "" →
      postRoomTasksPre p tz tok rid fd = .error (.missing "formData.body")) ∧
    (∀ p tz tok rid fd, rid ≠ 0 → fd.body ≠ "" → fd.to_ids = .str "" →
      postRoomTasksPre p tz tok rid fd = .error (.missing "formData.to_ids")) ∧
    (∀ tok tid, getRoomTaskPre tok 0 tid = .error (.missing "roomId")) ∧
    (∀ tok rid, rid ≠ 0 → getRoomTaskPre tok rid 0 = .error (.missing "taskId")) ∧
    (∀ tok tid b, putRoomTaskStatusPre tok 0 tid b = .error (.missing "roomId")) ∧
    (∀ tok rid b, rid ≠ 0 → putRoomTaskStatusPre tok rid 0 b = .error (.missing "taskId")) ∧
    (∀ tok rid tid, rid ≠ 0 → tid ≠ 0 →
      putRoomTaskStatusPre tok rid tid "" = .error (.missing "formData.body")) ∧
    (∀ tok a, getRoomFilesPre tok 0 a = .error (.missing "roomId")) ∧
    (∀ tok f m, postRoomFilesPre tok 0 f m = .error (.missing "roomId")) ∧
    (∀ tok rid m, rid ≠ 0 →
      postRoomFilesPre tok rid none m = .error (.missing "formData.file")) ∧
    (∀ tok fid c, getRoomFilePre tok 0 fid c = .error (.missing "roomId")) ∧
    (∀ tok rid c, rid ≠ 0 → getRoomFilePre tok rid 0 c = .error (.missing "fileId")) ∧
    (∀ tok, getRoomLinkPre tok 0 = .error (.missing "roomId")) ∧
    (∀ tok c na d, postRoomLinkPre tok 0 c na d = .error (.missing "roomId")) ∧
    (∀ tok c na d, putRoomLinkPre tok 0 c na d = .error (.missing "roomId")) ∧
    (∀ tok, deleteRoomLinkPre tok 0 = .error (.missing "roomId")) ∧
    (∀ tok, putIncomingRequestsPre tok 0 = .error (.missing "requestId")) ∧
    (∀ tok, deleteIncomingRequestPre tok 0 = .error (.missing "requestId")) ∧
    (∀ e, issuedRequests (.error e) = []) := by
  refine ⟨?_, ?_, fun tok => rfl, fun tok fd => rfl, fun tok a => rfl, ?_,
    fun tok => rfl, fun tok fd => rfl, ?_, fun tok f => rfl, fun tok b su => rfl, ?_,
    fun tok mid => rfl, fun tok mid => rfl, ?_, fun tok mid => rfl, ?_,
    fun tok mid b => rfl, ?_, ?_, fun tok mid => rfl, ?_, fun tok q => rfl,
    fun p tz tok fd => rfl, ?_, ?_, fun tok tid => rfl, ?_, fun tok tid b => rfl, ?_, ?_,
    fun tok a => rfl, fun tok f m => rfl, ?_, fun tok fid c => rfl, ?_, fun tok => rfl,
    fun tok c na d => rfl, fun tok c na d => rfl, fun tok => rfl, fun tok => rfl,
    fun tok => rfl, fun e => rfl⟩
  · intro tok fd h
    simp [postRoomsPre, h]
  · intro tok fd h1 h2
    simp [postRoomsPre, h1, h2, StrOrList.isFalsy]
  · intro tok rid h
    simp [deleteRoomsPre, h]
  · intro tok rid fd h1 h2
    simp [putRoomMembersPre, h1, h2, StrOrList.isFalsy]
  · intro tok rid su h
    simp [postRoomMessagePre, h]
  · intro tok rid h
    simp [putRoomMessagesUnreadPre, h]
  · intro tok rid h
    simp [getRoomMessagePre, h]
  · intro tok rid b h
    simp [putRoomMessagePre, h]
  · intro tok rid mid h1 h2
    simp [putRoomMessagePre, h1, h2]
  · intro tok rid h
    simp [deleteRoomMessagePre, h]
  · intro p tz tok rid fd h1 h2
    simp [postRoomTasksPre, h1, h2]
  · intro p tz tok rid fd h1 h2 h3
    simp [postRoomTasksPre, h1, h2, h3, StrOrList.isFalsy]
  · intro tok rid h
    simp [getRoomTaskPre, h]
  · intro tok rid b h
    simp [putRoomTaskStatusPre, h]
  · intro tok rid tid h1 h2
    simp [putRoomTaskStatusPre, h1, h2, jsTrim, jsToLower]
  · intro tok rid m h
    simp [postRoomFilesPre, h]
  · intro tok rid c h
    simp [getRoomFilePre, h]

/-- Witness for C4 (amended): `putRoomMessagesUnread` rejects an empty
`message_id` before any transport call. -/
theorem C4_missing_parameter_checks_witness :
    putRoomMessagesUnreadPre "tok" 1 "" = .error (.missing "formData.message_id") :=
  C4_missing_parameter_checks.2.2.2.2.2.2.2.2.2.2.2.2.2.2.1 "tok" 1 (by decide)

/-- C5: the error classifier is a total function of the status code and the
optional resource label: 400, 401, 403, 404, 429 yield exactly
IncorrectParameters, Unauthorized, Forbidden, NotFound (whose message uses
the supplied resource label, defaulting to the generic リソース label) and
RateLimited, and every other status code yields an UnknownError whose name
carries that literal status code. -/
theorem C5_error_classifier_total (s : Nat) (r : String)
    (h : s ≠ 400 ∧ s ≠ 401 ∧ s ≠ 403 ∧ s ≠ 404 ∧ s ≠ 429) :
    (chatworkError 400 r).name = "IncorrectParametersError" ∧
    (chatworkError 401 r).name = "UnauthorizedError" ∧
    (chatworkError 403 r).name = "ForbiddenError" ∧
    (chatworkError 404 r).name = "NotFoundError" ∧
    (chatworkError 404 r).msg = r ++ "が存在しない" ∧
    (chatworkError 404 defaultResourceType).msg = "リソースが存在しない" ∧
    (chatworkError 429 r).name = "RateLimitError" ∧
    (chatworkError s r).name = "UnknownChatworkError " ++ toString s := by
  obtain ⟨h400, h401, h403, h404, h429⟩ := h
  refine ⟨rfl, rfl, rfl, rfl, rfl, rfl, rfl, ?_⟩
  simp [chatworkError, h400, h401, h403, h404, h429]

/-- Witness for C5 at status code 500. -/
theorem C5_error_classifier_total_witness :
    (chatworkError 500 "メッセージ").name = "UnknownChatworkError " ++ toString 500 :=
  (C5_error_classifier_total 500 "メッセージ" (by decide)).2.2.2.2.2.2.2

/-- C7: with no token argument, `CW_API_TOKEN` unset, and no `.env` entry,
construction fails before any HTTP call; otherwise the first non-empty
source in the chain argument → environment variable → dot-env entry
wins. -/
theorem C7_token_fallback_chain (arg : String) (env dotenv : Option String) :
    resolveToken "" none none = .error noTokenErrorMsg ∧
    (arg ≠ "" → resolveToken arg env dotenv = .ok arg) ∧
    (arg = "" → env.getD "" ≠ "" → resolveToken arg env dotenv = .ok (env.getD "")) ∧
    (arg = "" → env.getD "" = "" → dotenv.getD "" ≠ "" →
      resolveToken arg env dotenv = .ok (dotenv.getD "")) ∧
    (arg = "" → env.getD "" = "" → dotenv.getD "" = "" →
      resolveToken arg env dotenv = .error noTokenErrorMsg) := by
  refine ⟨rfl, fun h => ?_, fun h1 h2 => ?_, fun h1 h2 h3 => ?_, fun h1 h2 h3 => ?_⟩
  · simp [resolveToken, h]
  · simp [resolveToken, h1, h2]
  · simp [resolveToken, h1, h2, h3]
  · simp [resolveToken, h1, h2, h3]

/-- Witness for C7: the environment variable wins when the argument is
empty. -/
theorem C7_token_fallback_chain_witness :
    resolveToken "" (some "envtok") (some "filetok") = .ok ((some "envtok").getD "") :=
  (C7_token_fallback_chain "" (some "envtok") (some "filetok")).2.2.1 rfl (by decide)

/-- C9: encoding an id-list array yields the comma-joined concatenation of
its elements in original order (for the admin/member/readonly lists of
`postRooms`/`putRoomMembers` and the assignee list of `postRoomTasks`),
and the encoding is idempotent: applied to an already-joined string it
performs no further transformation. -/
theorem C9_list_join_idempotent (l : List StrOrNum) (v : StrOrList) :
    joinIfArray (.arr l) = String.intercalate "," (l.map StrOrNum.asString) ∧
    (∀ k, entryValuesAsStrings (k, .arr l) =
      (k, String.intercalate "," (l.map StrOrNum.asString))) ∧
    joinIfArray (.str (joinIfArray v)) = joinIfArray v ∧
    (∀ k, entryValuesAsStrings (k, .str (entryValuesAsStrings (k, .arr l)).2) =
      entryValuesAsStrings (k, .arr l)) ∧
    (∀ tok fd, fd.name ≠ "" → fd.members_admin_ids = .arr l →
      preIsOk (postRoomsPre tok fd) = true ∧
      ("members_admin_ids", joinComma l) ∈ preFormPairs (postRoomsPre tok fd)) ∧
    (∀ tok rid fd, rid ≠ 0 → fd.members_admin_ids = .arr l →
      preIsOk (putRoomMembersPre tok rid fd) = true ∧
      ("members_admin_ids", joinComma l) ∈ preFormPairs (putRoomMembersPre tok rid fd)) ∧
    (∀ p tz tok rid fd, rid ≠ 0 → fd.body ≠ "" → fd.to_ids = .arr l →
      fd.limit = none → fd.limit_type = none →
      preIsOk (postRoomTasksPre p tz tok rid fd) = true ∧
      ("to_ids", joinComma l) ∈ preFormPairs (postRoomTasksPre p tz tok rid fd)) := by
  refine ⟨rfl, fun k => rfl, ?_, fun k => rfl, ?_, ?_, ?_⟩
  · cases v <;> rfl
  · intro tok fd hname hadmin
    constructor
    · simp [postRoomsPre, hname, hadmin, StrOrList.isFalsy, preIsOk]
    · simp [postRoomsPre, hname, hadmin, StrOrList.isFalsy, preFormPairs,
        RequestBody.formPairs, optEntry, joinIfArray, joinComma, entryValuesAsStrings]
  · intro tok rid fd hrid hadmin
    constructor
    · simp [putRoomMembersPre, hrid, hadmin, StrOrList.isFalsy, preIsOk]
    · simp [putRoomMembersPre, hrid, hadmin, StrOrList.isFalsy, preFormPairs,
        RequestBody.formPairs, joinIfArray, joinComma, entryValuesAsStrings]
  · intro p tz tok rid fd hrid hbody htoids hlimit hlt
    constructor
    · simp [postRoomTasksPre, hrid, hbody, htoids, hlimit, hlt, StrOrList.isFalsy,
        limitTruthy, isValidLimitType, preIsOk]
    · simp [postRoomTasksPre, hrid, hbody, htoids, hlimit, hlt, StrOrList.isFalsy,
        limitTruthy, isValidLimitType, preFormPairs, RequestBody.formPairs, joinIfArray,
        joinComma, entryValuesAsStrings]

/-- Witness for C9 on the list `["1", 2]` through `postRooms`. -/
theorem C9_list_join_idempotent_witness :
    preIsOk (postRoomsPre "tok"
      {name := "room", members_admin_ids := .arr [.str "1", .num 2],
       icon_preset := "group"}) = true ∧
    ("members_admin_ids", joinComma [.str "1", .num 2]) ∈ preFormPairs (postRoomsPre "tok"
      {name := "room", members_admin_ids := .arr [.str "1", .num 2],
       icon_preset := "group"}) :=
  (C9_list_join_idempotent [.str "1", .num 2] (.str "")).2.2.2.2.1 "tok"
    {name := "room", members_admin_ids := .arr [.str "1", .num 2], icon_preset := "group"}
    (by decide) rfl

/-- C10: `getRoomMessages` always carries the force key in its query
string: a falsy caller value (`undefined` or `false`) yields a URL ending
in `?force=0` rather than an omitted key, although the generic
query-string builder drops keys whose value is `undefined`. -/
theorem C10_force_key_always_present (token : String) (roomId : Int) (force : Option Bool)
    (h : roomId ≠ 0) :
    getRoomMessagesPre token roomId force = .ok
      ⟨apiV2Endpoint ++ "/rooms/" ++ toString roomId ++ "/messages"
        ++ (if force = some true then "?force=1" else "?force=0"), "get",
        defaultHeaders token, .empty⟩ ∧
    (force = none ∨ force = some false →
      getRoomMessagesPre token roomId force = .ok
        ⟨apiV2Endpoint ++ "/rooms/" ++ toString roomId ++ "/messages" ++ "?force=0", "get",
          defaultHeaders token, .empty⟩) ∧
    (∀ k, queryStringFromParamsObject (some [(k, none)]) = "") := by
  have h1 : ∀ b : Option Bool, b = some true →
      getRoomMessagesPre token roomId b = .ok
        ⟨apiV2Endpoint ++ "/rooms/" ++ toString roomId ++ "/messages" ++ "?force=1", "get",
          defaultHeaders token, .empty⟩ := by
    rintro _ rfl
    unfold getRoomMessagesPre
    rw [if_neg h]
    rfl
  have h0 : ∀ b : Option Bool, b ≠ some true →
      getRoomMessagesPre token roomId b = .ok
        ⟨apiV2Endpoint ++ "/rooms/" ++ toString roomId ++ "/messages" ++ "?force=0", "get",
          defaultHeaders token, .empty⟩ := by
    intro b hb
    unfold getRoomMessagesPre
    rw [if_neg h, if_neg hb]
    rfl
  refine ⟨?_, ?_, fun k => rfl⟩
  · by_cases hf : force = some true
    · rw [if_pos hf]
      exact h1 force hf
    · rw [if_neg hf]
      exact h0 force hf
  · rintro (rfl | rfl) <;> exact h0 _ (by simp)

/-- Witness for C10 at room 1 with an `undefined` force value. -/
theorem C10_force_key_always_present_witness :
    getRoomMessagesPre "tok" 1 none = .ok
      ⟨apiV2Endpoint ++ "/rooms/" ++ toString (1 : Int) ++ "/messages" ++ "?force=0", "get",
        defaultHeaders "tok", .empty⟩ :=
  (C10_force_key_always_present "tok" 1 none (by decide)).2.1 (Or.inl rfl)

/-- C8: the `getRoomTasks` status filter is trimmed and lower-cased before
use — `" DONE "` becomes the filter `done` — while a value outside
`{open, done}` such as `"bogus"` is dropped entirely and the call proceeds
without a filter and without raising an error. -/
theorem C8_status_filter_normalization (token : String) (roomId : Int) (q : RoomTasksQuery)
    (h : roomId ≠ 0) :
    getRoomTasksPre token roomId {status := some " DONE "} = .ok
      ⟨apiV2Endpoint ++ "/rooms/" ++ toString roomId ++ "/tasks" ++ "?status=done", "get",
        defaultHeaders token, .empty⟩ ∧
    getRoomTasksPre token roomId {status := some "bogus"} = .ok
      ⟨apiV2Endpoint ++ "/rooms/" ++ toString roomId ++ "/tasks" ++ "", "get",
        defaultHeaders token, .empty⟩ ∧
    preIsOk (getRoomTasksPre token roomId q) = true := by
  refine ⟨?_, ?_, ?_⟩
  · unfold getRoomTasksPre
    rw [if_neg h]
    rfl
  · unfold getRoomTasksPre
    rw [if_neg h]
    rfl
  · unfold getRoomTasksPre
    rw [if_neg h]
    rfl

/-- C1 (code evaluation): a caller following the method's own contract and
passing the due date as epoch **seconds** (here 1700000000) gets a `limit`
form field of `"1700000"`, not `"1700000000"`: the numeric value is fed to
`new Date(n)`, which reads milliseconds, and is then floor-divided by 1000
again on re-encoding. -/
theorem C1_numeric_limit_divided_twice :
    preFormPairs (postRoomTasksPre (fun _ => 0) 0 "tok" 1
      {body := "t", to_ids := .str "1", limit := some (.num 1700000000)}) =
      [("body", "t"), ("to_ids", "1"), ("limit", "1700000"), ("limit_type", "time")] ∧
    ("limit", "1700000000") ∉ preFormPairs (postRoomTasksPre (fun _ => 0) 0 "tok" 1
      {body := "t", to_ids := .str "1", limit := some (.num 1700000000)}) := by
  constructor
  · rfl
  · decide

/-- C2 (code evaluation): `postRoomFiles` hands `#FormDataHeaders` —
content-type `application/x-www-form-urlencoded` included — to the
transport together with its multipart body, so the multipart boundary
content-type is *not* left to the transport. -/
theorem C2_upload_forces_urlencoded_content_type :
    postRoomFilesPre "tok" 1 (some (.bytes [104, 105])) "hello" =
      .ok ⟨apiV2Endpoint ++ "/rooms/1/files", "post", formDataHeaders "tok",
        .multipart "hello" [104, 105]⟩ ∧
    ("content-type", "application/x-www-form-urlencoded") ∈ formDataHeaders "tok" := by
  constructor
  · rfl
  · decide

/-- C3 (counterexample): posting `body: "hi"`, `self_unread: true` to room
1 against a 404 transport raises NotFound with the *generic* リソース
label — `postRoomMessage` passes no resource label to `ChatworkError` — so
the error message is not the message-type label the claim requires. -/
theorem C3_counterexample_generic_label :
    postRoomMessageRun "tok" 1 "hi" true 404 =
      .httpError ⟨apiV2Endpoint ++ "/rooms/1/messages", "post", formDataHeaders "tok",
        .form [("body", "hi"), ("self_unread", "1")]⟩
        ⟨"NotFoundError", "リソースが存在しない"⟩ ∧
    ("リソースが存在しない" : String) ≠ "メッセージが存在しない" := by
  constructor
  · rfl
  · decide

/-- C3 (amended): posting a room message with body `"hi"` and
`self_unread: true` encodes the form body as `body=hi&self_unread=1` and
performs exactly one POST to the room's messages path; a 404 response is
classified as NotFound with the generic リソース resource label (the call
site passes no message-type label). -/
theorem C3_post_message_scenario (token : String) (roomId : Int) (h : roomId ≠ 0) :
    postRoomMessagePre token roomId "hi" true = .ok
      ⟨apiV2Endpoint ++ "/rooms/" ++ toString roomId ++ "/messages", "post",
        formDataHeaders token, .form [("body", "hi"), ("self_unread", "1")]⟩ ∧
    issuedRequests (postRoomMessagePre token roomId "hi" true) =
      [⟨apiV2Endpoint ++ "/rooms/" ++ toString roomId ++ "/messages", "post",
        formDataHeaders token, .form [("body", "hi"), ("self_unread", "1")]⟩] ∧
    serializeForm [("body", "hi"), ("self_unread", "1")] = "body=hi&self_unread=1" ∧
    postRoomMessageRun token roomId "hi" true 404 =
      .httpError ⟨apiV2Endpoint ++ "/rooms/" ++ toString roomId ++ "/messages", "post",
        formDataHeaders token, .form [("body", "hi"), ("self_unread", "1")]⟩
        (chatworkError 404 defaultResourceType) ∧
    chatworkError 404 defaultResourceType = ⟨"NotFoundError", "リソースが存在しない"⟩ := by
  have hpre : postRoomMessagePre token roomId "hi" true = .ok
      ⟨apiV2Endpoint ++ "/rooms/" ++ toString roomId ++ "/messages", "post",
        formDataHeaders token, .form [("body", "hi"), ("self_unread", "1")]⟩ := by
    unfold postRoomMessagePre
    rw [if_neg h]
    rfl
  refine ⟨hpre, ?_, by decide, ?_, rfl⟩
  · rw [hpre]
    rfl
  · unfold postRoomMessageRun dispatch
    rw [hpre]
    rfl

/-- Witness for C3 (amended), the concrete form-body encoding. -/
theorem C3_post_message_scenario_witness :
    serializeForm [("body", "hi"), ("self_unread", "1")] = "body=hi&self_unread=1" :=
  (C3_post_message_scenario "tok" 1 (by decide)).2.2.1

/-- C6: in `postRoomTasks` with no supplied due type: no due timestamp
defaults the encoded `limit_type` to `none`; a truthy due value whose
normalized date has hours, minutes and seconds all zero defaults it to
`date`; otherwise to `time`.  A supplied due type is trimmed and
lower-cased before validation, and an invalid value raises
InvalidParameter naming the field, the offending (normalized) value, and
the expected set. -/
theorem C6_limit_type_inference (parse : String → Int) (tz : Int) (token : String)
    (roomId : Int) (fd : RoomTasksPostForm) (hr : roomId ≠ 0) (hb : fd.body ≠ "")
    (ht : fd.to_ids.isFalsy = false) :
    (fd.limit_type = none → fd.limit = none →
      ("limit_type", "none") ∈ preFormPairs (postRoomTasksPre parse tz token roomId fd)) ∧
    (∀ v, fd.limit_type = none → fd.limit = some v → v.isTruthy = true →
      (normalizeLimit parse v).getSeconds tz = 0 →
      (normalizeLimit parse v).getMinutes tz = 0 →
      (normalizeLimit parse v).getHours tz = 0 →
      ("limit_type", "date") ∈ preFormPairs (postRoomTasksPre parse tz token roomId fd)) ∧
    (∀ v, fd.limit_type = none → fd.limit = some v → v.isTruthy = true →
      ¬((normalizeLimit parse v).getSeconds tz = 0 ∧
        (normalizeLimit parse v).getMinutes tz = 0 ∧
        (normalizeLimit parse v).getHours tz = 0) →
      ("limit_type", "time") ∈ preFormPairs (postRoomTasksPre parse tz token roomId fd)) ∧
    (∀ s, fd.limit_type = some s → s ≠ "" →
      (isValidLimitType (jsToLower (jsTrim s)) = true →
        ("limit_type", jsToLower (jsTrim s)) ∈
          preFormPairs (postRoomTasksPre parse tz token roomId fd)) ∧
      (isValidLimitType (jsToLower (jsTrim s)) = false →
        postRoomTasksPre parse tz token roomId fd =
          .error (.invalid "formData.limit_type" (jsToLower (jsTrim s))
            "\"none\" または \"date\" または \"time\""))) := by
  refine ⟨?_, ?_, ?_, ?_⟩
  · intro hlt hl
    simp [postRoomTasksPre, hr, hb, ht, hlt, hl, limitTruthy, isValidLimitType,
      preFormPairs, RequestBody.formPairs, entryValuesAsStrings]
  · intro v hlt hl htr hs hm hh
    simp [postRoomTasksPre, hr, hb, ht, hlt, hl, htr, hs, hm, hh, limitTruthy,
      isValidLimitType, preFormPairs, RequestBody.formPairs, entryValuesAsStrings]
  · intro v hlt hl htr hn
    simp [postRoomTasksPre, hr, hb, ht, hlt, hl, htr, hn, limitTruthy,
      isValidLimitType, preFormPairs, RequestBody.formPairs, entryValuesAsStrings]
  · intro s hlt hs
    constructor
    · intro hv
      simp [postRoomTasksPre, hr, hb, ht, hlt, hs, hv, preFormPairs,
        RequestBody.formPairs, entryValuesAsStrings]
    · intro hv
      simp [postRoomTasksPre, hr, hb, ht, hlt, hs, hv]

/-- Witness for C6: a midnight (UTC) due date with no supplied type infers
`date`. -/
theorem C6_limit_type_inference_witness :
    ("limit_type", "date") ∈ preFormPairs (postRoomTasksPre (fun _ => 0) 0 "tok" 1
      {body := "t", to_ids := .str "1", limit := some (.date ⟨86400000⟩)}) :=
  (C6_limit_type_inference (fun _ => 0) 0 "tok" 1
      {body := "t", to_ids := .str "1", limit := some (.date ⟨86400000⟩)}
      (by decide) (by decide) (by decide)).2.1
    (.date ⟨86400000⟩) rfl rfl (by decide) (by decide) (by decide) (by decide)

/-- Witness for C8 at room 1. -/
theorem C8_status_filter_normalization_witness :
    getRoomTasksPre "tok" 1 {status := some " DONE "} = .ok
      ⟨apiV2Endpoint ++ "/rooms/" ++ toString (1 : Int) ++ "/tasks" ++ "?status=done", "get",
        defaultHeaders "tok", .empty⟩ :=
  (C8_status_filter_normalization "tok" 1 {} (by decide)).1

end Chatwork
